import Mathlib

/-!
Verification of the request-orchestration pipeline of `backend/server.js`
(the `POST /api/verify` Express handler of the claim-verification app).

The embedding models one request's lifecycle as the ordered list of
observable events it produces: the multer middleware staging an uploaded
file, the handler spawning the analysis engine, the process-close callback
deleting the staged file and writing the HTTP response.  Environment
behaviour that is outside the JavaScript source (the millisecond clock read
by `Date.now()`, the child process outcome, the platform JSON parser, and
whether `fs.unlinkSync` succeeds) is passed in as explicit parameters.
-/

namespace Server

/-- JSON values, as produced by the platform `JSON.parse` and consumed by
`res.json`. -/
inductive Json where
  | null : Json
  | bool : Bool → Json
  | num : Int → Json
  | str : String → Json
  | arr : List Json → Json
  | obj : List (String × Json) → Json

/-- An uploaded file as the multer middleware sees it: only the
client-supplied original filename matters to the staging logic. -/
structure UploadFile where
  originalname : String

/-- A multi-part `POST /api/verify` request: `original_claim` and
`source_identifier` are text fields (`none` when the field is absent from
the form), `file` is the optional `claimImage` upload. -/
structure Request where
  original_claim : Option String
  source_identifier : Option String
  file : Option UploadFile

/-- Outcome of the spawned child process as observed by the `close`
callback: the exit code (`none` models a `null` code after a signal) and
the accumulated `stdout` / `stderr` stream buffers. -/
structure ProcResult where
  exitCode : Option Int
  stdout : String
  stderr : String

/-- A spawn invocation: command, argument vector, environment
(`server.js` line 49: `spawn('python', [...], { env: process.env })`). -/
structure SpawnCall where
  cmd : String
  args : List String
  env : List (String × String)

/-- An HTTP response: status code and JSON body. -/
structure HttpResponse where
  status : Nat
  body : Json

/-- Body of an error response carrying only an `error` field. -/
def errorBody (msg : String) : Json :=
  Json.obj [("error", Json.str msg)]

/-- Body of an error response carrying an `error` and a `details` field. -/
def errorBodyDetails (msg details : String) : Json :=
  Json.obj [("error", Json.str msg), ("details", Json.str details)]

/-- JavaScript truthiness of an optional string form field: `undefined`
and the empty string are falsy, every other string is truthy.  This is the
test performed by `if (!original_claim)` on `server.js` line 42. -/
def truthy : Option String → Bool
  | none => false
  | some s => !(s == "")

/-- The JavaScript expression `source_identifier || 'N/A'` of `server.js`
line 52: the sentinel replaces an absent or empty identifier. -/
def resolveSource : Option String → String
  | none => "N/A"
  | some s => if s == "" then "N/A" else s

/-- Index of the last occurrence of a character in a list, if any. -/
def lastIdxOf (c : Char) : List Char → Option Nat
  | [] => none
  | x :: xs =>
    match lastIdxOf c xs with
    | some i => some (i + 1)
    | none => if x == c then some 0 else none

/-- Characters of the final path component (after the last slash). -/
def afterLastSlash (l : List Char) : List Char :=
  match lastIdxOf '/' l with
  | none => l
  | some i => l.drop (i + 1)

/-- Model of Node's `path.extname`: the substring of the basename from its
last dot to its end, or empty when the basename has no dot or its only dot
is its first character. -/
def extname (p : String) : String :=
  match lastIdxOf '.' (afterLastSlash p.data) with
  | none => ""
  | some i => if i == 0 then "" else String.mk ((afterLastSlash p.data).drop i)

/-- The relative storage directory configured on `server.js` line 16. -/
def uploadDir : String := "uploads"

/-- The filename chosen by the multer `diskStorage` callback on
`server.js` line 25: `Date.now() + path.extname(file.originalname)`, with
`now` the millisecond timestamp the callback observes. -/
def stagedFilename (now : Nat) (originalname : String) : String :=
  Nat.repr now ++ extname originalname

/-- The on-disk path of a staged upload (`req.file.path`). -/
def stagedPath (now : Nat) (originalname : String) : String :=
  uploadDir ++ "/" ++ stagedFilename now originalname

/-- The script path `path.join(__dirname, 'main.py')` of `server.js`
line 50, with the server directory rendered as `backend`. -/
def scriptPath : String := "backend/main.py"

/-- The JavaScript expression `req.file ? req.file.path : 'null'` of
`server.js` line 40: the staged path, or the sentinel string. -/
def imagePathOf (req : Request) (now : Nat) : String :=
  match req.file with
  | some f => stagedPath now f.originalname
  | none => "null"

/-- The observable events of one request, in the order they occur. -/
inductive Event where
  | stage : String → Event
  | spawned : SpawnCall → Event
  | procClosed : Option Int → Event
  | unlink : String → Event
  | unlinkFailed : String → Event
  | respond : HttpResponse → Event

/-- Whether an event is an HTTP response being written. -/
def isRespond : Event → Bool
  | Event.respond _ => true
  | _ => false

/-- Whether an event is a successful staged-file deletion. -/
def isUnlink : Event → Bool
  | Event.unlink _ => true
  | _ => false

/-- Whether an event is a child-process spawn. -/
def isSpawned : Event → Bool
  | Event.spawned _ => true
  | _ => false

/-- Whether an event is a file being written to the uploads directory. -/
def isStage : Event → Bool
  | Event.stage _ => true
  | _ => false

/-- The branch of the `close` callback after cleanup (`server.js` lines
72-80): exit code `0` with non-empty stdout parses the stdout as JSON and
answers 200, a parse failure answers 500 with the raw stdout as details,
and every other outcome answers 500 with the accumulated stderr. -/
def interpretResult (parseJson : String → Option Json) (pr : ProcResult) :
    HttpResponse :=
  if pr.exitCode == some 0 && !(pr.stdout == "") then
    match parseJson pr.stdout with
    | some j => ⟨200, j⟩
    | none => ⟨500, errorBodyDetails "Failed to parse agent result." pr.stdout⟩
  else
    ⟨500, errorBodyDetails "Agent script failed." pr.stderr⟩

/-- One full request through `POST /api/verify` (`server.js` lines 36-81),
as the ordered trace of its observable events.  The multer middleware
stages the upload (if any) before the handler body runs; the handler
rejects a falsy claim with a 400, otherwise spawns the engine and, in the
`close` callback, deletes the staged file with `fs.unlinkSync` and then
responds.  `now` is the millisecond timestamp seen by the staging filename
callback, `env` the parent process environment passed through the spawn
options, `pr` the child's outcome, `parseJson` the platform JSON parser,
and `unlinkOk` whether `fs.unlinkSync` on the staged path succeeds; when it
throws, the exception escapes the callback and the events after it (in
particular the response) never happen. -/
def handle (req : Request) (now : Nat) (env : List (String × String))
    (pr : ProcResult) (parseJson : String → Option Json) (unlinkOk : Bool) :
    List Event :=
  let stagingEvents : List Event :=
    match req.file with
    | some f => [Event.stage (stagedPath now f.originalname)]
    | none => []
  if truthy req.original_claim then
    let call : SpawnCall :=
      ⟨"python",
        [scriptPath, req.original_claim.getD "",
          resolveSource req.source_identifier, imagePathOf req now],
        env⟩
    let closeEvents : List Event :=
      match req.file with
      | some f =>
        if unlinkOk then
          [Event.unlink (stagedPath now f.originalname),
            Event.respond (interpretResult parseJson pr)]
        else
          [Event.unlinkFailed (stagedPath now f.originalname)]
      | none => [Event.respond (interpretResult parseJson pr)]
    stagingEvents ++ [Event.spawned call, Event.procClosed pr.exitCode] ++
      closeEvents
  else
    stagingEvents ++ [Event.respond ⟨400, errorBody "Claim text is required."⟩]

/-- The decimal value of a digit character. -/
def digitVal (c : Char) : Nat := c.toNat - 48

/-- The number denoted by a most-significant-first digit string. -/
def valDigits (l : List Char) : Nat :=
  l.foldl (fun a c => 10 * a + digitVal c) 0

/-- Holds for every character other than the extension dot. -/
def dotFree (c : Char) : Bool := !(c == '.')

/-!
Helper lemmas: which events a trace can contain, and facts about the
decimal rendering used by the staged filename.
-/

theorem respond_eq_interpret (req : Request) (now : Nat)
    (env : List (String × String)) (pr : ProcResult)
    (parseJson : String → Option Json) (unlinkOk : Bool)
    (hc : truthy req.original_claim = true) (r : HttpResponse)
    (hr : Event.respond r ∈ handle req now env pr parseJson unlinkOk) :
    r = interpretResult parseJson pr := by
  rcases req with ⟨oc, os, f⟩
  cases f with
  | none =>
    simp [handle, hc] at hr
    exact hr
  | some f =>
    cases unlinkOk with
    | true =>
      simp [handle, hc] at hr
      exact hr
    | false =>
      simp [handle, hc] at hr

theorem respond_mem_of_truthy (req : Request) (now : Nat)
    (env : List (String × String)) (pr : ProcResult)
    (parseJson : String → Option Json)
    (hc : truthy req.original_claim = true) :
    Event.respond (interpretResult parseJson pr) ∈
      handle req now env pr parseJson true := by
  rcases req with ⟨oc, os, f⟩
  cases f with
  | none => simp [handle, hc]
  | some f => simp [handle, hc]

theorem unlink_mem (req : Request) (now : Nat) (env : List (String × String))
    (pr : ProcResult) (parseJson : String → Option Json) (unlinkOk : Bool)
    (p : String) (hp : Event.unlink p ∈ handle req now env pr parseJson unlinkOk) :
    ∃ f, req.file = some f ∧ p = stagedPath now f.originalname := by
  rcases req with ⟨oc, os, f⟩
  cases f with
  | none =>
    cases hc : truthy oc with
    | true => simp [handle, hc] at hp
    | false => simp [handle, hc] at hp
  | some f =>
    refine ⟨f, rfl, ?_⟩
    cases hc : truthy oc with
    | true =>
      cases unlinkOk with
      | true =>
        simp [handle, hc] at hp
        exact hp
      | false => simp [handle, hc] at hp
    | false => simp [handle, hc] at hp

theorem data_append (a b : String) : (a ++ b).data = a.data ++ b.data := rfl

theorem digitVal_digitChar : ∀ d < 10, digitVal (Nat.digitChar d) = d := by
  decide

theorem digitChar_ne_dot_lt : ∀ d < 16, Nat.digitChar d ≠ '.' := by decide

theorem digitChar_ne_dot (d : Nat) : Nat.digitChar d ≠ '.' := by
  by_cases h : d < 16
  · exact digitChar_ne_dot_lt d h
  · have hstar : Nat.digitChar d = '*' := by
      simp [Nat.digitChar, show d ≠ 0 by omega, show d ≠ 1 by omega,
        show d ≠ 2 by omega, show d ≠ 3 by omega, show d ≠ 4 by omega,
        show d ≠ 5 by omega, show d ≠ 6 by omega, show d ≠ 7 by omega,
        show d ≠ 8 by omega, show d ≠ 9 by omega, show d ≠ 10 by omega,
        show d ≠ 11 by omega, show d ≠ 12 by omega, show d ≠ 13 by omega,
        show d ≠ 14 by omega, show d ≠ 15 by omega]
    rw [hstar]
    decide

theorem toDigitsCore_append :
    ∀ (f n : Nat) (acc : List Char),
      Nat.toDigitsCore 10 f n acc = Nat.toDigitsCore 10 f n [] ++ acc := by
  intro f
  induction f with
  | zero => intro n acc; rfl
  | succ f ih =>
    intro n acc
    simp only [Nat.toDigitsCore]
    split
    · rfl
    · rw [ih (n / 10) [Nat.digitChar (n % 10)],
        ih (n / 10) (Nat.digitChar (n % 10) :: acc)]
      simp

theorem valDigits_concat (l : List Char) (c : Char) :
    valDigits (l ++ [c]) = 10 * valDigits l + digitVal c := by
  simp [valDigits, List.foldl_append]

theorem valDigits_toDigitsCore :
    ∀ (f n : Nat), n < f → valDigits (Nat.toDigitsCore 10 f n []) = n := by
  intro f
  induction f with
  | zero => omega
  | succ f ih =>
    intro n hn
    simp only [Nat.toDigitsCore]
    split
    · rename_i h0
      have h10 : n % 10 < 10 := Nat.mod_lt _ (by omega)
      simp [valDigits, digitVal_digitChar _ h10]
      omega
    · rename_i h0
      rw [toDigitsCore_append, valDigits_concat]
      have h10 : n % 10 < 10 := Nat.mod_lt _ (by omega)
      rw [ih (n / 10) (by omega), digitVal_digitChar _ h10]
      omega

theorem repr_data (n : Nat) :
    (Nat.repr n).data = Nat.toDigitsCore 10 (n + 1) n [] := rfl

theorem repr_inj_data (m n : Nat)
    (h : (Nat.repr m).data = (Nat.repr n).data) : m = n := by
  have hm := valDigits_toDigitsCore (m + 1) m (by omega)
  have hn := valDigits_toDigitsCore (n + 1) n (by omega)
  rw [← repr_data] at hm hn
  rw [h, hn] at hm
  exact hm.symm

theorem toDigitsCore_no_dot :
    ∀ (f n : Nat) (acc : List Char), (∀ c ∈ acc, c ≠ '.') →
      ∀ c ∈ Nat.toDigitsCore 10 f n acc, c ≠ '.' := by
  intro f
  induction f with
  | zero => intro n acc hacc; exact hacc
  | succ f ih =>
    intro n acc hacc
    simp only [Nat.toDigitsCore]
    split
    · intro c hc
      rcases List.mem_cons.mp hc with h | h
      · rw [h]; exact digitChar_ne_dot _
      · exact hacc c h
    · refine ih (n / 10) _ ?_
      intro c hc
      rcases List.mem_cons.mp hc with h | h
      · rw [h]; exact digitChar_ne_dot _
      · exact hacc c h

theorem repr_no_dot (n : Nat) : ∀ c ∈ (Nat.repr n).data, c ≠ '.' := by
  rw [repr_data]
  exact toDigitsCore_no_dot (n + 1) n [] (by intro c hc; cases hc)

theorem takeWhile_append_all (p : Char → Bool) :
    ∀ (l r : List Char), (∀ c ∈ l, p c = true) →
      (r = [] ∨ ∃ c r2, r = c :: r2 ∧ p c = false) →
      (l ++ r).takeWhile p = l := by
  intro l
  induction l with
  | nil =>
    intro r _ hr
    rcases hr with rfl | ⟨c, r2, rfl, hc⟩
    · rfl
    · simp [List.takeWhile_cons, hc]
  | cons x xs ih =>
    intro r hl hr
    have hx : p x = true := hl x (List.mem_cons_self x xs)
    simp only [List.cons_append, List.takeWhile_cons, hx, if_true]
    rw [ih r (fun c hc => hl c (List.mem_cons_of_mem x hc)) hr]

theorem lastIdxOf_drop (c : Char) :
    ∀ (l : List Char) (i : Nat), lastIdxOf c l = some i →
      ∃ r, l.drop i = c :: r := by
  intro l
  induction l with
  | nil => intro i h; cases h
  | cons x xs ih =>
    intro i h
    rw [lastIdxOf] at h
    cases hx : lastIdxOf c xs with
    | some j =>
      rw [hx] at h
      injection h with h
      subst h
      simpa using ih j hx
    | none =>
      rw [hx] at h
      by_cases hxc : (x == c) = true
      · rw [if_pos hxc] at h
        injection h with h
        subst h
        exact ⟨xs, by rw [List.drop_zero, eq_of_beq hxc]⟩
      · rw [if_neg hxc] at h
        cases h

theorem extname_empty_or_dot (s : String) :
    (extname s).data = [] ∨ ∃ r, (extname s).data = '.' :: r := by
  cases h : lastIdxOf '.' (afterLastSlash s.data) with
  | none => left; simp [extname, h]
  | some i =>
    by_cases hi : i = 0
    · subst hi; left; simp [extname, h]
    · right
      rcases lastIdxOf_drop '.' (afterLastSlash s.data) i h with ⟨r, hr⟩
      exact ⟨r, by simp [extname, h, hi, hr]⟩

theorem stagedFilename_inj (t1 t2 : Nat) (n1 n2 : String) (h : t1 ≠ t2) :
    stagedFilename t1 n1 ≠ stagedFilename t2 n2 := by
  intro heq
  apply h
  have hd : (Nat.repr t1).data ++ (extname n1).data
      = (Nat.repr t2).data ++ (extname n2).data := by
    have h2 := congrArg String.data heq
    simpa [stagedFilename, data_append] using h2
  have k1 : ((Nat.repr t1).data ++ (extname n1).data).takeWhile dotFree
      = (Nat.repr t1).data := by
    refine takeWhile_append_all dotFree _ _ ?_ ?_
    · intro c hc
      simpa [dotFree] using repr_no_dot t1 c hc
    · rcases extname_empty_or_dot n1 with h1 | ⟨r, hr⟩
      · exact Or.inl h1
      · exact Or.inr ⟨'.', r, hr, by decide⟩
  have k2 : ((Nat.repr t2).data ++ (extname n2).data).takeWhile dotFree
      = (Nat.repr t2).data := by
    refine takeWhile_append_all dotFree _ _ ?_ ?_
    · intro c hc
      simpa [dotFree] using repr_no_dot t2 c hc
    · rcases extname_empty_or_dot n2 with h1 | ⟨r, hr⟩
      · exact Or.inl h1
      · exact Or.inr ⟨'.', r, hr, by decide⟩
  apply repr_inj_data
  rw [← k1, ← k2, hd]

theorem stagedPath_inj (t1 t2 : Nat) (n1 n2 : String) (h : t1 ≠ t2) :
    stagedPath t1 n1 ≠ stagedPath t2 n2 := by
  intro heq
  apply stagedFilename_inj t1 t2 n1 n2 h
  have h2 := congrArg String.data heq
  simp only [stagedPath, data_append] at h2
  have h3 := List.append_cancel_left h2
  calc stagedFilename t1 n1
      = String.mk (stagedFilename t1 n1).data := rfl
    _ = String.mk (stagedFilename t2 n2).data := by rw [h3]
    _ = stagedFilename t2 n2 := rfl

theorem respond_eq_400 (req : Request) (now : Nat)
    (env : List (String × String)) (pr : ProcResult)
    (parseJson : String → Option Json) (unlinkOk : Bool)
    (hc : truthy req.original_claim = false) (r : HttpResponse)
    (hr : Event.respond r ∈ handle req now env pr parseJson unlinkOk) :
    r = ⟨400, errorBody "Claim text is required."⟩ := by
  rcases req with ⟨oc, os, f⟩
  cases f with
  | none => simp [handle, hc] at hr; exact hr
  | some f => simp [handle, hc] at hr; exact hr

/-!
The claims.  Each claim of the specification gets one theorem below;
corrected claims additionally get a closed counterexample evaluating the
handler at a concrete input, and theorems with hypotheses get a closed
witness instantiating them.
-/

/-- C1, counterexample: the claim fails on the code in two ways.  A
whitespace-only claim is truthy in JavaScript, so the request with claim
" " is not rejected: the engine is spawned and the response is the 500
determined by the child, not a 400.  And for an absent-or-empty claim that
carries an upload, the multer middleware writes the file to the uploads
directory before validation runs, so a side effect does occur. -/
theorem claim1_counterexample :
    handle ⟨some " ", none, none⟩ 0 [] ⟨some 1, "", "boom"⟩ (fun _ => none) true
      = [Event.spawned ⟨"python", [scriptPath, " ", "N/A", "null"], []⟩,
         Event.procClosed (some 1),
         Event.respond ⟨500, errorBodyDetails "Agent script failed." "boom"⟩]
    ∧ handle ⟨some "", none, some ⟨"a.png"⟩⟩ 7 [] ⟨some 1, "", "boom"⟩
        (fun _ => none) true
      = [Event.stage "uploads/7.png",
         Event.respond ⟨400, errorBody "Claim text is required."⟩] :=
  ⟨rfl, rfl⟩

/-- C1 (amended): for every request whose original_claim field is absent
or the empty string, the handler responds 400 with body
error = "Claim text is required." and performs no further work: no child
process is spawned and no deletion happens.  An uploaded file accompanying
such a request is, however, staged to the uploads directory by the upload
middleware before validation, and whitespace-only claims are treated as
valid.  The whole trace is exactly the optional staging event followed by
the 400 response. -/
theorem claim1_empty_claim (req : Request) (now : Nat)
    (env : List (String × String)) (pr : ProcResult)
    (parseJson : String → Option Json) (unlinkOk : Bool)
    (h : req.original_claim = none ∨ req.original_claim = some "") :
    handle req now env pr parseJson unlinkOk
      = (match req.file with
          | some f => [Event.stage (stagedPath now f.originalname)]
          | none => [])
        ++ [Event.respond ⟨400, errorBody "Claim text is required."⟩] := by
  have hc : truthy req.original_claim = false := by
    rcases h with h | h <;> simp [h, truthy]
  rcases req with ⟨oc, os, f⟩
  cases f with
  | none => simp [handle, hc]
  | some f => simp [handle, hc]

/-- C1, witness: the amended theorem at the concrete empty-claim request
with an upload named x.png staged at millisecond 3. -/
theorem claim1_witness :
    handle ⟨some "", none, some ⟨"x.png"⟩⟩ 3 [] ⟨some 0, "", ""⟩
        (fun _ => none) true
      = [Event.stage (stagedPath 3 "x.png"),
         Event.respond ⟨400, errorBody "Claim text is required."⟩] :=
  claim1_empty_claim ⟨some "", none, some ⟨"x.png"⟩⟩ 3 [] ⟨some 0, "", ""⟩
    (fun _ => none) true (Or.inr rfl)

/-- C2, counterexample: a request with an empty claim and an upload stages
the file (the middleware runs before validation), sends the 400 response,
and never deletes the staged file: the claim that every request that
stages a file has the file deleted before its response fails on the
code. -/
theorem claim2_counterexample :
    handle ⟨some "", none, some ⟨"b.jpg"⟩⟩ 3 [] ⟨some 0, "x", ""⟩
        (fun _ => some Json.null) true
      = [Event.stage "uploads/3.jpg",
         Event.respond ⟨400, errorBody "Claim text is required."⟩]
    ∧ (handle ⟨some "", none, some ⟨"b.jpg"⟩⟩ 3 [] ⟨some 0, "x", ""⟩
        (fun _ => some Json.null) true).filter isUnlink = [] :=
  ⟨rfl, rfl⟩

/-- C2 (amended): for every request that stages an uploaded file AND
passes claim validation, whenever an HTTP response is sent the staged file
was deleted after the child process terminated and before the response,
on every outcome of the invocation (the trace is exactly staging, spawn,
process close, unlink, response, for every exit code, stdout and parse
outcome).  A file staged alongside an absent-or-empty claim is never
deleted. -/
theorem claim2_cleanup (req : Request) (now : Nat)
    (env : List (String × String)) (pr : ProcResult)
    (parseJson : String → Option Json) (unlinkOk : Bool)
    (hc : truthy req.original_claim = true)
    (f : UploadFile) (hf : req.file = some f)
    (r : HttpResponse)
    (hr : Event.respond r ∈ handle req now env pr parseJson unlinkOk) :
    handle req now env pr parseJson unlinkOk
      = [Event.stage (stagedPath now f.originalname),
         Event.spawned ⟨"python", [scriptPath, req.original_claim.getD "",
           resolveSource req.source_identifier,
           stagedPath now f.originalname], env⟩,
         Event.procClosed pr.exitCode,
         Event.unlink (stagedPath now f.originalname),
         Event.respond (interpretResult parseJson pr)] := by
  cases unlinkOk with
  | false =>
    exfalso
    rcases req with ⟨oc, os, fl⟩
    cases hf
    simp [handle, hc] at hr
  | true =>
    rcases req with ⟨oc, os, fl⟩
    cases hf
    simp [handle, hc, imagePathOf]

/-- C2, witness: the amended theorem at a concrete request staging p.png,
with the engine exiting 0 but emitting unparsable output. -/
theorem claim2_witness :
    handle ⟨some "c", none, some ⟨"p.png"⟩⟩ 1 [] ⟨some 0, "not json", ""⟩
        (fun _ => none) true
      = [Event.stage (stagedPath 1 "p.png"),
         Event.spawned ⟨"python", [scriptPath, "c", "N/A",
           stagedPath 1 "p.png"], []⟩,
         Event.procClosed (some 0),
         Event.unlink (stagedPath 1 "p.png"),
         Event.respond (interpretResult (fun _ => none)
           ⟨some 0, "not json", ""⟩)] :=
  claim2_cleanup ⟨some "c", none, some ⟨"p.png"⟩⟩ 1 [] ⟨some 0, "not json", ""⟩
    (fun _ => none) true rfl ⟨"p.png"⟩ rfl
    ⟨500, errorBodyDetails "Failed to parse agent result." "not json"⟩
    (List.Mem.tail _ (List.Mem.tail _ (List.Mem.tail _ (List.Mem.tail _
      (List.Mem.head _)))))

/-- C3: for every validated request, the response sent is the
"Agent script failed." error exactly when it is NOT the case that the exit
code is zero and the stdout buffer non-empty - i.e. the outcome is
classified as success iff exitCode = 0 and stdout is non-empty - and in
the success case whose stdout parses as JSON the response is a 200
carrying the parsed payload. -/
theorem claim3_success_classification (req : Request) (now : Nat)
    (env : List (String × String)) (pr : ProcResult)
    (parseJson : String → Option Json) (unlinkOk : Bool)
    (hc : truthy req.original_claim = true)
    (r : HttpResponse)
    (hr : Event.respond r ∈ handle req now env pr parseJson unlinkOk) :
    ((pr.exitCode = some 0 ∧ pr.stdout ≠ "") ↔
        r ≠ ⟨500, errorBodyDetails "Agent script failed." pr.stderr⟩)
    ∧ (∀ j : Json, pr.exitCode = some 0 → pr.stdout ≠ "" →
        parseJson pr.stdout = some j → r = ⟨200, j⟩) := by
  have he := respond_eq_interpret req now env pr parseJson unlinkOk hc r hr
  subst he
  constructor
  · constructor
    · rintro ⟨h0, hs⟩ heq
      rw [interpretResult] at heq
      simp [h0, hs] at heq
      cases hp : parseJson pr.stdout with
      | some j => rw [hp] at heq; simp [errorBodyDetails] at heq
      | none => rw [hp] at heq; simp [errorBodyDetails] at heq
    · intro hne
      by_contra hnot
      push_neg at hnot
      apply hne
      rw [interpretResult]
      have hcond : (pr.exitCode == some 0 && !(pr.stdout == "")) = false := by
        rcases Classical.em (pr.exitCode = some 0) with h0 | h0
        · have hs := hnot h0
          simp [h0, hs]
        · simp [h0]
      simp [hcond]
  · intro j h0 hs hp
    rw [interpretResult]
    simp [h0, hs, hp]

/-- C3, witness: the theorem at a request whose engine exits 0 with stdout
"out" parsing to the string payload "v"; the response is the 200 carrying
that payload. -/
theorem claim3_witness :
    (⟨200, Json.str "v"⟩ : HttpResponse) = ⟨200, Json.str "v"⟩ :=
  (claim3_success_classification ⟨some "c", none, none⟩ 0 []
      ⟨some 0, "out", ""⟩
      (fun s => if s == "out" then some (Json.str "v") else none) true rfl
      ⟨200, Json.str "v"⟩
      (List.Mem.tail _ (List.Mem.tail _ (List.Mem.head _)))).2
    (Json.str "v") rfl (by decide) rfl

/-- C4: for every validated request whose engine exits 0 with a non-empty
stdout that does not parse as JSON, the response sent is the 500 whose
body has error = "Failed to parse agent result." and details = the raw
stdout text; the parse failure is never coerced into a success. -/
theorem claim4_parse_failure (req : Request) (now : Nat)
    (env : List (String × String)) (pr : ProcResult)
    (parseJson : String → Option Json) (unlinkOk : Bool)
    (hc : truthy req.original_claim = true)
    (h0 : pr.exitCode = some 0) (hs : pr.stdout ≠ "")
    (hp : parseJson pr.stdout = none)
    (r : HttpResponse)
    (hr : Event.respond r ∈ handle req now env pr parseJson unlinkOk) :
    r = ⟨500, errorBodyDetails "Failed to parse agent result." pr.stdout⟩ := by
  have he := respond_eq_interpret req now env pr parseJson unlinkOk hc r hr
  subst he
  rw [interpretResult]
  simp [h0, hs, hp]

/-- C4, witness: the theorem at the spec scenario D input, engine exiting
0 with stdout "not json". -/
theorem claim4_witness :
    (⟨500, errorBodyDetails "Failed to parse agent result." "not json"⟩ :
        HttpResponse)
      = ⟨500, errorBodyDetails "Failed to parse agent result." "not json"⟩ :=
  claim4_parse_failure ⟨some "c", none, none⟩ 0 [] ⟨some 0, "not json", ""⟩
    (fun _ => none) true rfl rfl (by decide) rfl
    ⟨500, errorBodyDetails "Failed to parse agent result." "not json"⟩
    (List.Mem.tail _ (List.Mem.tail _ (List.Mem.head _)))

/-- C5: for every validated request whose engine exits nonzero (or with a
null code after a signal) or produces an empty stdout buffer, the response
sent is the 500 whose body has error = "Agent script failed." and
details = the accumulated stderr text, whatever the stderr content is;
stdout never appears in this error and stderr is never parsed. -/
theorem claim5_process_failure (req : Request) (now : Nat)
    (env : List (String × String)) (pr : ProcResult)
    (parseJson : String → Option Json) (unlinkOk : Bool)
    (hc : truthy req.original_claim = true)
    (hfail : pr.exitCode ≠ some 0 ∨ pr.stdout = "")
    (r : HttpResponse)
    (hr : Event.respond r ∈ handle req now env pr parseJson unlinkOk) :
    r = ⟨500, errorBodyDetails "Agent script failed." pr.stderr⟩ := by
  have he := respond_eq_interpret req now env pr parseJson unlinkOk hc r hr
  subst he
  rw [interpretResult]
  rcases hfail with h | h
  · simp [h]
  · simp [h]

/-- C5, witness: the theorem at the spec scenario C input, engine exiting
1 with stderr "API key missing". -/
theorem claim5_witness :
    (⟨500, errorBodyDetails "Agent script failed." "API key missing"⟩ :
        HttpResponse)
      = ⟨500, errorBodyDetails "Agent script failed." "API key missing"⟩ :=
  claim5_process_failure ⟨some "c", none, none⟩ 0 []
    ⟨some 1, "", "API key missing"⟩ (fun _ => none) true rfl
    (Or.inl (by decide))
    ⟨500, errorBodyDetails "Agent script failed." "API key missing"⟩
    (List.Mem.tail _ (List.Mem.tail _ (List.Mem.head _)))

/-- C6: every validated request spawns the engine exactly once, with
exactly three positional arguments after the script path, in fixed order:
the claim text, the source identifier (the sentinel "N/A" when the field
is absent or blank), and the staged artifact path (the sentinel "null"
when no file was uploaded); and the spawn call carries the full parent
environment unfiltered. -/
theorem claim6_spawn_contract (req : Request) (now : Nat)
    (env : List (String × String)) (pr : ProcResult)
    (parseJson : String → Option Json) (unlinkOk : Bool)
    (hc : truthy req.original_claim = true) :
    (Event.spawned ⟨"python",
        [scriptPath, req.original_claim.getD "",
          resolveSource req.source_identifier, imagePathOf req now], env⟩
      ∈ handle req now env pr parseJson unlinkOk)
    ∧ (∀ c : SpawnCall,
        Event.spawned c ∈ handle req now env pr parseJson unlinkOk →
        c = ⟨"python", [scriptPath, req.original_claim.getD "",
          resolveSource req.source_identifier, imagePathOf req now], env⟩)
    ∧ ((req.source_identifier = none ∨ req.source_identifier = some "") →
        resolveSource req.source_identifier = "N/A")
    ∧ (req.file = none → imagePathOf req now = "null")
    ∧ (∀ f : UploadFile, req.file = some f →
        imagePathOf req now = stagedPath now f.originalname) := by
  refine ⟨?_, ?_, ?_, ?_, ?_⟩
  · rcases req with ⟨oc, os, fl⟩
    cases fl with
    | none => simp [handle, hc]
    | some f =>
      cases unlinkOk with
      | true => simp [handle, hc]
      | false => simp [handle, hc]
  · intro c hmem
    rcases req with ⟨oc, os, fl⟩
    cases fl with
    | none =>
      simp [handle, hc] at hmem
      exact hmem
    | some f =>
      cases unlinkOk with
      | true => simp [handle, hc] at hmem; exact hmem
      | false => simp [handle, hc] at hmem; exact hmem
  · intro h
    rcases h with h | h <;> simp [h, resolveSource]
  · intro h
    simp [imagePathOf, h]
  · intro f h
    simp [imagePathOf, h]

/-- C6, witness: the spec scenario A request (claim only, no source, no
file) spawns the engine with the sentinels "N/A" and "null" and the parent
environment. -/
theorem claim6_witness :
    Event.spawned ⟨"python",
        [scriptPath, "The sky is green", "N/A", "null"], [("API_KEY", "k")]⟩
      ∈ handle ⟨some "The sky is green", none, none⟩ 0 [("API_KEY", "k")]
        ⟨some 0, "o", ""⟩ (fun _ => none) true :=
  (claim6_spawn_contract ⟨some "The sky is green", none, none⟩ 0
    [("API_KEY", "k")] ⟨some 0, "o", ""⟩ (fun _ => none) true rfl).1

/-- C7: the code violates the claim.  The call fs.unlinkSync(imagePath) on
server.js line 69 is not wrapped in try/catch, so when the deletion of the
staged file throws, the exception escapes the close callback before
res.json runs: nothing is logged about the failure and no HTTP response is
ever written, instead of the claimed log-and-respond behaviour.  The
theorem evaluates the handler at the failing input (valid claim, staged
upload a.png, engine exiting 0 with parsable output, deletion failing):
the trace ends at the failed unlink and contains no response event. -/
theorem claim7_unlink_failure :
    handle ⟨some "x", none, some ⟨"a.png"⟩⟩ 5 [] ⟨some 0, "out", ""⟩
        (fun _ => some (Json.obj [])) false
      = [Event.stage "uploads/5.png",
         Event.spawned ⟨"python", [scriptPath, "x", "N/A", "uploads/5.png"], []⟩,
         Event.procClosed (some 0),
         Event.unlinkFailed "uploads/5.png"]
    ∧ (handle ⟨some "x", none, some ⟨"a.png"⟩⟩ 5 [] ⟨some 0, "out", ""⟩
        (fun _ => some (Json.obj [])) false).filter isRespond = [] :=
  ⟨rfl, rfl⟩

/-- C8, counterexample: two concurrent requests whose staging callbacks
observe the same millisecond (Date.now() is not unique across calls) get
the SAME staged path when their extensions agree, so the first request's
cleanup deletes the path that is also the second request's artifact: the
unconditional distinctness the claim asserts fails on the code. -/
theorem claim8_counterexample :
    stagedPath 1000 "a.png" = stagedPath 1000 "b.png"
    ∧ (handle ⟨some "c", none, some ⟨"a.png"⟩⟩ 1000 [] ⟨some 1, "", "e"⟩
        (fun _ => none) true).filter isUnlink
      = [Event.unlink (stagedPath 1000 "b.png")] :=
  ⟨rfl, rfl⟩

/-- C8 (amended): for every pair of requests that stage uploaded files at
DISTINCT millisecond timestamps, the staged filenames (the decimal
timestamp concatenated with the original extension) and paths are
distinct, for any pair of original filenames, so one request's cleanup
never deletes the other request's artifact; requests staged within the
same millisecond can collide. -/
theorem claim8_distinct_timestamps (t1 t2 : Nat) (n1 n2 : String)
    (h : t1 ≠ t2) :
    stagedFilename t1 n1 ≠ stagedFilename t2 n2
    ∧ stagedPath t1 n1 ≠ stagedPath t2 n2
    ∧ ∀ (req : Request) (env : List (String × String)) (pr : ProcResult)
        (parseJson : String → Option Json) (unlinkOk : Bool) (p : String),
        Event.unlink p ∈ handle req t1 env pr parseJson unlinkOk →
        req.file = some ⟨n1⟩ →
        p ≠ stagedPath t2 n2 := by
  refine ⟨stagedFilename_inj t1 t2 n1 n2 h, stagedPath_inj t1 t2 n1 n2 h, ?_⟩
  intro req env pr parseJson unlinkOk p hp hf
  rcases unlink_mem req t1 env pr parseJson unlinkOk p hp with ⟨f, hf2, rfl⟩
  rw [hf] at hf2
  injection hf2 with hf2
  subst hf2
  exact stagedPath_inj t1 t2 n1 n2 h

/-- C8, witness: the same original filename staged at milliseconds 1 and
2 yields distinct staged filenames. -/
theorem claim8_witness :
    (stagedFilename 1 "a.png" = stagedFilename 2 "a.png") = False :=
  eq_false (claim8_distinct_timestamps 1 2 "a.png" "a.png" (by decide)).1

/-- C9: for every validated request whose engine exits 0 with stdout that
parses as JSON, the 200 response body is exactly the parsed JSON value for
EVERY such value - array, string, number, null, or an object missing every
VerdictReport field - with no validation or normalization applied. -/
theorem claim9_verbatim_payload (req : Request) (now : Nat)
    (env : List (String × String)) (pr : ProcResult)
    (parseJson : String → Option Json) (unlinkOk : Bool)
    (hc : truthy req.original_claim = true)
    (j : Json) (h0 : pr.exitCode = some 0) (hs : pr.stdout ≠ "")
    (hp : parseJson pr.stdout = some j)
    (r : HttpResponse)
    (hr : Event.respond r ∈ handle req now env pr parseJson unlinkOk) :
    r = ⟨200, j⟩ := by
  have he := respond_eq_interpret req now env pr parseJson unlinkOk hc r hr
  subst he
  rw [interpretResult]
  simp [h0, hs, hp]

/-- C9, witness: an engine emitting a bare empty JSON array is answered
with a 200 carrying exactly that array. -/
theorem claim9_witness :
    (⟨200, Json.arr []⟩ : HttpResponse) = ⟨200, Json.arr []⟩ :=
  claim9_verbatim_payload ⟨some "c", none, none⟩ 0 [] ⟨some 0, "[]", ""⟩
    (fun _ => some (Json.arr [])) true rfl (Json.arr []) rfl (by decide) rfl
    ⟨200, Json.arr []⟩
    (List.Mem.tail _ (List.Mem.tail _ (List.Mem.head _)))

/-- C10: the response is deterministic in the observable inputs.  Two
requests with identical claim text, identical source identifier and
identical file presence, whose child processes terminate with the same
exit code, stdout and stderr (and the same JSON parser), receive responses
with the same status code and the same body, whatever their staging
timestamps, environments and staged paths are. -/
theorem claim10_deterministic (req1 req2 : Request) (now1 now2 : Nat)
    (env1 env2 : List (String × String)) (pr : ProcResult)
    (parseJson : String → Option Json) (uo1 uo2 : Bool)
    (hclaim : req1.original_claim = req2.original_claim)
    (hsource : req1.source_identifier = req2.source_identifier)
    (hfile : req1.file.isSome = req2.file.isSome)
    (r1 r2 : HttpResponse)
    (h1 : Event.respond r1 ∈ handle req1 now1 env1 pr parseJson uo1)
    (h2 : Event.respond r2 ∈ handle req2 now2 env2 pr parseJson uo2) :
    r1.status = r2.status ∧ r1.body = r2.body := by
  cases hc : truthy req1.original_claim with
  | true =>
    have e1 := respond_eq_interpret req1 now1 env1 pr parseJson uo1 hc r1 h1
    have e2 := respond_eq_interpret req2 now2 env2 pr parseJson uo2
      (hclaim ▸ hc) r2 h2
    rw [e1, e2]
    exact ⟨rfl, rfl⟩
  | false =>
    have e1 := respond_eq_400 req1 now1 env1 pr parseJson uo1 hc r1 h1
    have e2 := respond_eq_400 req2 now2 env2 pr parseJson uo2
      (hclaim ▸ hc) r2 h2
    rw [e1, e2]
    exact ⟨rfl, rfl⟩

/-- C10, witness: two requests differing only in staging timestamp,
environment and uploaded filename, with the same failing child outcome,
receive the same 500 response. -/
theorem claim10_witness :
    ((⟨500, errorBodyDetails "Agent script failed." "err"⟩ :
          HttpResponse).status
        = (⟨500, errorBodyDetails "Agent script failed." "err"⟩ :
          HttpResponse).status)
    ∧ ((⟨500, errorBodyDetails "Agent script failed." "err"⟩ :
          HttpResponse).body
        = (⟨500, errorBodyDetails "Agent script failed." "err"⟩ :
          HttpResponse).body) :=
  claim10_deterministic ⟨some "c", some "s", some ⟨"a.png"⟩⟩
    ⟨some "c", some "s", some ⟨"b.jpg"⟩⟩ 1 2 [("API_KEY", "k")] []
    ⟨some 1, "", "err"⟩ (fun _ => none) true true rfl rfl rfl
    ⟨500, errorBodyDetails "Agent script failed." "err"⟩
    ⟨500, errorBodyDetails "Agent script failed." "err"⟩
    (List.Mem.tail _ (List.Mem.tail _ (List.Mem.tail _ (List.Mem.tail _
      (List.Mem.head _)))))
    (List.Mem.tail _ (List.Mem.tail _ (List.Mem.tail _ (List.Mem.tail _
      (List.Mem.head _)))))

end Server
